import Mathlib

/-!
Shallow embedding of the scan-gated conditional deployment pipeline of
`artifactory/commands/gradle/gradle.go` (the `GradleCommand` type and the
functions `init`, `shouldCreateBuildArtifactsFile`, `Run`,
`conditionalUpload`, `runGradle`, `createGradleRunConfig`,
`setDeployFalse`).

External collaborators (the viper configuration library, the Gradle build
executor, the Xray scanner, the generic upload command, temp-file creation)
are modelled as oracle inputs: each fallible collaborator call is given its
outcome by an environment record, and the pipeline's observable behaviour is
a trace of events (reader disposal, upload dispatches, executor invocation)
plus a final outcome.
-/

/-- Go `error` values, modelled as their message strings (`nil` = `Option.none`). -/
abbrev GoError := String

/-- Outcome of a Go function returning `error`, extended with the outcome of a
nil-pointer dereference panic (which Go would raise at runtime). -/
inductive GoOutcome where
  | ok : GoOutcome
  | fail : GoError → GoOutcome
  | nilPanic : GoOutcome
deriving DecidableEq, Repr

/-- A file-selection spec (`spec.SpecFiles` from the client library): the only
field the gradle code inspects is its list of file groups (`.Files`). -/
structure SpecFiles where
  Files : List String
deriving DecidableEq, Repr

/-- One upload dispatch as issued by `conditionalUpload`: the selection it was
given via `SetSpec`, the thread count it was given via `SetUploadConfiguration`
(`none` when `SetUploadConfiguration` was never called on the command), and the
opaque build configuration and server details tokens passed along. -/
structure UploadCall where
  specFiles : SpecFiles
  uploadConfigThreads : Option Int
  buildConfiguration : Nat
  serverDetails : Nat
deriving DecidableEq, Repr

/-- Observable events of one `conditionalUpload` run: disposal of the result
reader (`Close` or `Reset`) and upload dispatches. -/
inductive CondEvent where
  | close : CondEvent
  | reset : CondEvent
  | upload : UploadCall → CondEvent
deriving DecidableEq, Repr

/-- The state of a `GradleCommand` receiver as far as the pipeline reads it.
`configuration` (`*build.BuildConfiguration`) and `serverDetails`
(`*config.ServerDetails`) are opaque to this code and modelled as tokens;
`scanOutputFormat` is likewise an opaque pass-through token. -/
structure GradleCommand where
  threads : Int
  detailedSummary : Bool
  xrayScan : Bool
  scanOutputFormat : Nat
  configuration : Nat
  serverDetails : Nat
  deploymentDisabled : Bool
  buildArtifactsDetailsFile : String
deriving DecidableEq, Repr

/-- Oracle outcomes for the external calls made inside `conditionalUpload`:
the `ServerDetails()` initialization, `ScanDeployableArtifacts` (its two
returned selection pointers, `nil` = `none`, and its error), `Reader().Close()`,
and the two possible `uploadCmd.Run()` calls. -/
structure CondUploadEnv where
  serverDetailsErr : Option GoError
  binariesSpecFile : Option SpecFiles
  pomSpecFile : Option SpecFiles
  scanErr : Option GoError
  closeErr : Option GoError
  binariesUploadErr : Option GoError
  pomUploadErr : Option GoError
deriving DecidableEq, Repr

/-- The second (descriptors) phase of `conditionalUpload`: the
`len(pomSpecFile.Files) > 0` check dereferences the pom selection pointer with
no nil check, so a `nil` pom selection is a nil-pointer panic. A non-empty pom
selection is dispatched with `SetBuildConfiguration`, `SetSpec` and
`SetServerDetails` only — no `SetUploadConfiguration` call. The phase's
`err` is returned as the function's result (`nil` when the phase was skipped). -/
def uploadPomPhase (gc : GradleCommand) (env : CondUploadEnv)
    (tr : List CondEvent) : List CondEvent × GoOutcome :=
  match env.pomSpecFile with
  | none => (tr, GoOutcome.nilPanic)
  | some pom =>
    if 0 < pom.Files.length then
      let call : UploadCall :=
        ⟨pom, none, gc.configuration, gc.serverDetails⟩
      (tr ++ [CondEvent.upload call],
        match env.pomUploadErr with
        | some e => GoOutcome.fail e
        | none => GoOutcome.ok)
    else (tr, GoOutcome.ok)

/-- The scan gate and first (binaries) phase of `conditionalUpload`: a `nil`
binaries selection means the scan failed and the function returns `nil` with no
upload; a non-empty binaries selection is dispatched with an
`UploadConfiguration` carrying `gc.threads`, and a failure of that dispatch
returns immediately, skipping the pom phase. -/
def uploadBinariesPhase (gc : GradleCommand) (env : CondUploadEnv)
    (tr : List CondEvent) : List CondEvent × GoOutcome :=
  match env.binariesSpecFile with
  | none => (tr, GoOutcome.ok)
  | some bin =>
    if 0 < bin.Files.length then
      let call : UploadCall :=
        ⟨bin, some gc.threads, gc.configuration, gc.serverDetails⟩
      let tr := tr ++ [CondEvent.upload call]
      match env.binariesUploadErr with
      | some e => (tr, GoOutcome.fail e)
      | none => uploadPomPhase gc env tr
    else uploadPomPhase gc env tr

/-- `GradleCommand.conditionalUpload`: initializes server details, scans the
deployable artifacts, disposes of the result reader (`Close` when no detailed
summary was requested — returning the close error if any — otherwise `Reset`),
then checks the scan error, then the scan gate and the two upload phases. -/
def conditionalUpload (gc : GradleCommand) (env : CondUploadEnv) :
    List CondEvent × GoOutcome :=
  match env.serverDetailsErr with
  | some e => ([], GoOutcome.fail e)
  | none =>
    if !gc.detailedSummary then
      match env.closeErr with
      | some ce => ([CondEvent.close], GoOutcome.fail ce)
      | none =>
        match env.scanErr with
        | some e => ([CondEvent.close], GoOutcome.fail e)
        | none => uploadBinariesPhase gc env [CondEvent.close]
    else
      match env.scanErr with
      | some e => ([CondEvent.reset], GoOutcome.fail e)
      | none => uploadBinariesPhase gc env [CondEvent.reset]

/-- The viper configuration object, modelled as an association list of string
keys to string values in which `Set` prepends (so the most recent `Set` wins
on lookup, matching viper's override semantics). -/
structure Viper where
  entries : List (String × String)
deriving DecidableEq, Repr

/-- `vConfig.Set(key, value)`. -/
def Viper.set (v : Viper) (k val : String) : Viper :=
  ⟨(k, val) :: v.entries⟩

/-- The first entry for a key, if any. -/
def Viper.lookup (v : Viper) (k : String) : Option String :=
  (v.entries.find? (fun p => p.1 == k)).map Prod.snd

/-- `vConfig.GetString(key)`: the empty string when the key is unset. -/
def Viper.getString (v : Viper) (k : String) : String :=
  (v.lookup k).getD ""

/-- `vConfig.GetBool(key)`. -/
def Viper.getBool (v : Viper) (k : String) : Bool :=
  v.getString k == "true"

/-- `vConfig.IsSet(key)`: true when the key itself or any nested key under it
(viper section semantics) has an entry. -/
def Viper.isSet (v : Viper) (k : String) : Bool :=
  v.entries.any (fun p => p.1 == k || p.1.startsWith (k ++ "."))

/-- Constant `useplugin` of the gradle package. -/
def usePlugin : String := "useplugin"

/-- Constant `usewrapper` of the gradle package. -/
def useWrapper : String := "usewrapper"

/-- External constant `build.DeployerPrefix` of the core library: the prefix
of deployer configuration keys (exact string immaterial to this code). -/
def DeployerPrefix : String := "deployer."

/-- External constant `build.DeployArtifacts` of the core library. -/
def DeployArtifacts : String := "deployArtifacts"

/-- External constant `build.Url` of the core library. -/
def Url : String := "url"

/-- External constant `build.Repo` of the core library. -/
def Repo : String := "repo"

/-- External constant `build.ForkCount` of the core library. -/
def ForkCount : String := "forkCount"

/-- `setDeployFalse`: forces the deploy-artifacts flag to `"false"` and fills
the deployer url/repo with placeholder values exactly when they are unset. -/
def setDeployFalse (v : Viper) : Viper :=
  let v := v.set (DeployerPrefix ++ DeployArtifacts) "false"
  let v := if v.getString (DeployerPrefix ++ Url) = "" then
    v.set (DeployerPrefix ++ Url) "http://empty_url" else v
  if v.getString (DeployerPrefix ++ Repo) = "" then
    v.set (DeployerPrefix ++ Repo) "empty_repo" else v

/-- `createGradleRunConfig`: reads the wrapper toggle, overrides the fork
count when `threads > 0`, applies `setDeployFalse` when `disableDeploy`, and
reads the plugin toggle. The `build.CreateBuildInfoProps` call and the
deployable-artifacts property write are external collaborator steps consuming
the resulting configuration; the model returns the configuration itself. -/
def createGradleRunConfig (v : Viper) (_deployableArtifactsFile : String)
    (threads : Int) (disableDeploy : Bool) : Viper × Bool × Bool :=
  let wrapper := v.getBool useWrapper
  let v := if 0 < threads then v.set ForkCount (toString threads) else v
  let v := if disableDeploy then setDeployFalse v else v
  let plugin := v.getBool usePlugin
  (v, wrapper, plugin)

/-- `runGradle`: derives the run configuration and hands it to the external
build-info extractor; the extractor chain (build name/number lookup, module
creation, dependency calculation) is external and its outcome is the oracle
`execErr`. Returns the configuration the executor stage was given. -/
def runGradle (vConfig : Viper) (deployableArtifactsFile : String)
    (threads : Int) (disableDeploy : Bool) (execErr : Option GoError) :
    Viper × Option GoError :=
  let derived := createGradleRunConfig vConfig deployableArtifactsFile threads disableDeploy
  (derived.1, execErr)

/-- Backslash doubling on a character list. -/
def doubleWinChars : List Char → List Char
  | [] => []
  | c :: cs =>
    if c = '\\' then c :: c :: doubleWinChars cs else c :: doubleWinChars cs

/-- `ioutils.DoubleWinPathSeparator` (external): doubles backslashes. -/
def doubleWinPathSeparator (s : String) : String :=
  ⟨doubleWinChars s.data⟩

/-- Oracle outcomes for the external calls made inside `init`: the config-file
read (yielding the raw viper configuration) and temp-file creation/close. -/
structure InitEnv where
  configRead : Except GoError Viper
  tempFile : Except GoError String
  tempCloseErr : Option GoError
deriving Repr

/-- `GradleCommand.shouldCreateBuildArtifactsFile`. -/
def GradleCommand.shouldCreateBuildArtifactsFile (gc : GradleCommand) : Bool :=
  (gc.detailedSummary && !gc.deploymentDisabled) || gc.xrayScan

/-- `GradleCommand.init`: reads the config file, rejects a scan request with
no deployer section, computes `deploymentDisabled`, and when a build-artifacts
file is needed creates a temp file and records its (Windows-doubled) path.
Returns the raw configuration and the updated receiver state. -/
def GradleCommand.init (gc : GradleCommand) (env : InitEnv) :
    Except GoError (Viper × GradleCommand) :=
  match env.configRead with
  | .error e => .error e
  | .ok vConfig =>
    if gc.xrayScan && !(vConfig.isSet "deployer") then
      .error "Conditional upload can only be performed if deployer is set in the config"
    else
      let gc := { gc with deploymentDisabled := gc.xrayScan || !(vConfig.isSet "deployer") }
      if gc.shouldCreateBuildArtifactsFile then
        match env.tempFile with
        | .error e => .error e
        | .ok name =>
          let gc := { gc with buildArtifactsDetailsFile := doubleWinPathSeparator name }
          match env.tempCloseErr with
          | some e => .error e
          | none => .ok (vConfig, gc)
      else .ok (vConfig, gc)

/-- Observable events of one `Run`: the build-executor stage invoked with its
derived configuration, the deployable-artifacts unmarshalling, and the
`conditionalUpload` events. -/
inductive RunEvent where
  | execGradle : Viper → RunEvent
  | unmarshal : RunEvent
  | cond : CondEvent → RunEvent
deriving DecidableEq, Repr

/-- Oracle outcomes for one whole `Run`: the `init` collaborators, the
executor outcome, the `UnmarshalDeployableArtifacts` outcome, and the
`conditionalUpload` collaborators. -/
structure RunEnv where
  initEnv : InitEnv
  execErr : Option GoError
  unmarshalErr : Option GoError
  condEnv : CondUploadEnv
deriving Repr

/-- `GradleCommand.Run`: `init`, then the gradle executor (note: its
`disableDeploy` argument is `gc.IsXrayScan()`), then — only when a
build-artifacts file was created — unmarshal the deployable artifacts
(populating `gc.result`) and, on a scan request, `conditionalUpload`.
Returns the event trace, the outcome, and whether `gc.result` was populated. -/
def GradleCommand.Run (gc : GradleCommand) (env : RunEnv) :
    List RunEvent × GoOutcome × Bool :=
  match gc.init env.initEnv with
  | .error e => ([], GoOutcome.fail e, false)
  | .ok (vConfig, gc) =>
    let r := runGradle vConfig gc.buildArtifactsDetailsFile gc.threads gc.xrayScan env.execErr
    let tr := [RunEvent.execGradle r.1]
    match r.2 with
    | some e => (tr, GoOutcome.fail e, false)
    | none =>
      if gc.buildArtifactsDetailsFile ≠ "" then
        match env.unmarshalErr with
        | some e => (tr, GoOutcome.fail e, false)
        | none =>
          let tr := tr ++ [RunEvent.unmarshal]
          if gc.xrayScan then
            let c := conditionalUpload gc env.condEnv
            (tr ++ c.1.map RunEvent.cond, c.2, true)
          else (tr, GoOutcome.ok, true)
      else (tr, GoOutcome.ok, false)

/-- Both upload phases only ever append upload events to the trace they are given. -/
theorem uploadPomPhase_trace_shape (gc : GradleCommand) (env : CondUploadEnv)
    (tr : List CondEvent) :
    ∃ us, (uploadPomPhase gc env tr).1 = tr ++ us ∧
      ∀ e ∈ us, ∃ c, e = CondEvent.upload c := by
  unfold uploadPomPhase
  cases hp : env.pomSpecFile with
  | none => exact ⟨[], by simp, by simp⟩
  | some pom =>
    by_cases h : 0 < pom.Files.length
    · refine ⟨[CondEvent.upload ⟨pom, none, gc.configuration, gc.serverDetails⟩], ?_, ?_⟩
      · simp [h]
      · simp
    · exact ⟨[], by simp [h], by simp⟩

theorem uploadBinariesPhase_trace_shape (gc : GradleCommand) (env : CondUploadEnv)
    (tr : List CondEvent) :
    ∃ us, (uploadBinariesPhase gc env tr).1 = tr ++ us ∧
      ∀ e ∈ us, ∃ c, e = CondEvent.upload c := by
  unfold uploadBinariesPhase
  cases hb : env.binariesSpecFile with
  | none => exact ⟨[], by simp, by simp⟩
  | some bin =>
    by_cases h : 0 < bin.Files.length
    · cases hbe : env.binariesUploadErr with
      | some e =>
        refine ⟨[CondEvent.upload ⟨bin, some gc.threads, gc.configuration, gc.serverDetails⟩], ?_, ?_⟩
        · simp [h]
        · simp
      | none =>
        obtain ⟨us, h1, h2⟩ := uploadPomPhase_trace_shape gc env
          (tr ++ [CondEvent.upload ⟨bin, some gc.threads, gc.configuration, gc.serverDetails⟩])
        refine ⟨CondEvent.upload ⟨bin, some gc.threads, gc.configuration, gc.serverDetails⟩ :: us, ?_, ?_⟩
        · simp [h, h1]
        · intro e he
          rcases List.mem_cons.mp he with rfl | he
          · exact ⟨_, rfl⟩
          · exact h2 e he
    · obtain ⟨us, h1, h2⟩ := uploadPomPhase_trace_shape gc env tr
      exact ⟨us, by simp [h, h1], h2⟩

/-- Claim C2: in every run that reaches the scan, exactly one disposal is
invoked on the result reader — Close when no detailed summary was requested,
Reset when one was, never both and never neither — and the disposal is the
first observable event of the run, before any upload; the theorem holds for
every scan error and verdict, so the disposal precedes their inspection. -/
theorem conditionalUpload_disposal_exactly_once
    (gc : GradleCommand) (env : CondUploadEnv)
    (hs : env.serverDetailsErr = none) :
    (∃ us, (conditionalUpload gc env).1 =
        (if gc.detailedSummary then CondEvent.reset else CondEvent.close) :: us ∧
        ∀ e ∈ us, ∃ c, e = CondEvent.upload c) ∧
    (conditionalUpload gc env).1.count CondEvent.close =
      (if gc.detailedSummary then 0 else 1) ∧
    (conditionalUpload gc env).1.count CondEvent.reset =
      (if gc.detailedSummary then 1 else 0) := by
  have hmain : ∃ us, (conditionalUpload gc env).1 =
      (if gc.detailedSummary then CondEvent.reset else CondEvent.close) :: us ∧
      ∀ e ∈ us, ∃ c, e = CondEvent.upload c := by
    unfold conditionalUpload
    rw [hs]
    cases hd : gc.detailedSummary with
    | false =>
      cases hce : env.closeErr with
      | some ce => exact ⟨[], by simp, by simp⟩
      | none =>
        cases hsc : env.scanErr with
        | some e => exact ⟨[], by simp, by simp⟩
        | none =>
          obtain ⟨us, h1, h2⟩ := uploadBinariesPhase_trace_shape gc env [CondEvent.close]
          exact ⟨us, by simp [h1], h2⟩
    | true =>
      cases hsc : env.scanErr with
      | some e => exact ⟨[], by simp, by simp⟩
      | none =>
        obtain ⟨us, h1, h2⟩ := uploadBinariesPhase_trace_shape gc env [CondEvent.reset]
        exact ⟨us, by simp [h1], h2⟩
  obtain ⟨us, htr, hup⟩ := hmain
  have hcl : CondEvent.close ∉ us := by
    intro hmem
    obtain ⟨c, hc⟩ := hup _ hmem
    exact CondEvent.noConfusion hc
  have hrs : CondEvent.reset ∉ us := by
    intro hmem
    obtain ⟨c, hc⟩ := hup _ hmem
    exact CondEvent.noConfusion hc
  refine ⟨⟨us, htr, hup⟩, ?_, ?_⟩ <;>
    rw [htr] <;> cases hd : gc.detailedSummary <;>
      simp [List.count_cons, List.count_eq_zero.mpr hcl, List.count_eq_zero.mpr hrs]

/-- Claim C5: when the binaries-phase upload fails, the trace ends at the
binaries dispatch — the descriptors phase is never invoked — and the binaries
error is returned unchanged. -/
theorem conditionalUpload_binaries_failure_skips_poms
    (gc : GradleCommand) (env : CondUploadEnv) (bin : SpecFiles) (e : GoError)
    (hs : env.serverDetailsErr = none)
    (hd : gc.detailedSummary = false → env.closeErr = none)
    (hsc : env.scanErr = none)
    (hb : env.binariesSpecFile = some bin)
    (hne : bin.Files ≠ [])
    (hbe : env.binariesUploadErr = some e) :
    conditionalUpload gc env =
      ([if gc.detailedSummary then CondEvent.reset else CondEvent.close,
        CondEvent.upload ⟨bin, some gc.threads, gc.configuration, gc.serverDetails⟩],
       GoOutcome.fail e) := by
  have hlen : 0 < bin.Files.length := List.length_pos.mpr hne
  unfold conditionalUpload uploadBinariesPhase
  cases hds : gc.detailedSummary with
  | false => simp [hs, hd hds, hsc, hb, hbe, hlen]
  | true => simp [hs, hsc, hb, hbe, hlen]

/-- Claim C6: when both selections are non-empty and both uploads succeed,
the trace is exactly the disposal, then the binaries dispatch, then the
descriptors dispatch: the binaries upload is issued strictly before the
descriptors upload. -/
theorem conditionalUpload_binaries_before_poms
    (gc : GradleCommand) (env : CondUploadEnv) (bin pom : SpecFiles)
    (hs : env.serverDetailsErr = none)
    (hd : gc.detailedSummary = false → env.closeErr = none)
    (hsc : env.scanErr = none)
    (hb : env.binariesSpecFile = some bin) (hbne : bin.Files ≠ [])
    (hp : env.pomSpecFile = some pom) (hpne : pom.Files ≠ [])
    (hbe : env.binariesUploadErr = none) (hpe : env.pomUploadErr = none) :
    conditionalUpload gc env =
      ([if gc.detailedSummary then CondEvent.reset else CondEvent.close,
        CondEvent.upload ⟨bin, some gc.threads, gc.configuration, gc.serverDetails⟩,
        CondEvent.upload ⟨pom, none, gc.configuration, gc.serverDetails⟩],
       GoOutcome.ok) := by
  have hlb : 0 < bin.Files.length := List.length_pos.mpr hbne
  have hlp : 0 < pom.Files.length := List.length_pos.mpr hpne
  unfold conditionalUpload uploadBinariesPhase uploadPomPhase
  cases hds : gc.detailedSummary with
  | false => simp [hs, hd hds, hsc, hb, hbe, hlb, hp, hpe, hlp]
  | true => simp [hs, hsc, hb, hbe, hlb, hp, hpe, hlp]

/-- Claim C8: conditionalUpload dereferences the descriptor selection with
no nil check — whenever the binaries selection is non-nil and execution
reaches the descriptors-phase length check, a nil descriptor selection is a
nil-pointer dereference. -/
theorem conditionalUpload_nil_pom_panics
    (gc : GradleCommand) (env : CondUploadEnv) (bin : SpecFiles)
    (hs : env.serverDetailsErr = none)
    (hd : gc.detailedSummary = false → env.closeErr = none)
    (hsc : env.scanErr = none)
    (hb : env.binariesSpecFile = some bin)
    (hbe : env.binariesUploadErr = none)
    (hp : env.pomSpecFile = none) :
    (conditionalUpload gc env).2 = GoOutcome.nilPanic := by
  unfold conditionalUpload uploadBinariesPhase uploadPomPhase
  cases hds : gc.detailedSummary with
  | false =>
    by_cases hlen : 0 < bin.Files.length <;>
      simp [hs, hd hds, hsc, hb, hbe, hp, hlen]
  | true =>
    by_cases hlen : 0 < bin.Files.length <;>
      simp [hs, hsc, hb, hbe, hp, hlen]

/-- Claim C9: when no detailed summary was requested and closing the result
reader fails, conditionalUpload returns the Close error; the theorem holds for
every scan error (the env fixes none of it), so the Close error takes
precedence over — masks — any error the scan itself returned. -/
theorem conditionalUpload_close_error_masks_scan_error
    (gc : GradleCommand) (env : CondUploadEnv) (ce : GoError)
    (hds : gc.detailedSummary = false)
    (hs : env.serverDetailsErr = none)
    (hce : env.closeErr = some ce) :
    conditionalUpload gc env = ([CondEvent.close], GoOutcome.fail ce) := by
  unfold conditionalUpload
  simp [hs, hds, hce]

/-- Claim C1 (corrected): when the scan verdict's binaries selection is
absent (nil), conditionalUpload performs no upload call of any kind, and —
provided the scan and the reader disposal reported no error — returns success.
The original claim also covered a present-but-empty binaries selection; the
counterexample shows the descriptors phase still uploads in that case. -/
theorem conditionalUpload_nil_binaries_no_upload
    (gc : GradleCommand) (env : CondUploadEnv)
    (hb : env.binariesSpecFile = none) :
    (∀ c, CondEvent.upload c ∉ (conditionalUpload gc env).1) ∧
    (env.serverDetailsErr = none → env.scanErr = none →
      (gc.detailedSummary = false → env.closeErr = none) →
      (conditionalUpload gc env).2 = GoOutcome.ok) := by
  unfold conditionalUpload uploadBinariesPhase
  cases hsd : env.serverDetailsErr with
  | some e => simp
  | none =>
    cases hds : gc.detailedSummary with
    | false =>
      cases hce : env.closeErr with
      | some ce => simp
      | none =>
        cases hsc : env.scanErr with
        | some e => simp
        | none => simp [hb]
    | true =>
      cases hsc : env.scanErr with
      | some e => simp
      | none => simp [hb]

/-- Any upload event produced by the pom phase (beyond the given trace)
carries the pom selection, no upload configuration, and the receiver's build
configuration and server details. -/
theorem uploadPomPhase_mem (gc : GradleCommand) (env : CondUploadEnv)
    (tr : List CondEvent) (c : UploadCall)
    (hc : CondEvent.upload c ∈ (uploadPomPhase gc env tr).1) :
    CondEvent.upload c ∈ tr ∨
      (env.pomSpecFile = some c.specFiles ∧ c.uploadConfigThreads = none ∧
       c.buildConfiguration = gc.configuration ∧ c.serverDetails = gc.serverDetails) := by
  unfold uploadPomPhase at hc
  cases hp : env.pomSpecFile with
  | none => rw [hp] at hc; exact Or.inl hc
  | some pom =>
    rw [hp] at hc
    by_cases h : 0 < pom.Files.length
    · simp only [if_pos h] at hc
      rcases List.mem_append.mp hc with hm | hm
      · exact Or.inl hm
      · have hceq : c = ⟨pom, none, gc.configuration, gc.serverDetails⟩ := by
          have := List.mem_singleton.mp hm
          exact CondEvent.upload.inj this
        subst hceq
        exact Or.inr ⟨rfl, rfl, rfl, rfl⟩
    · simp only [if_neg h] at hc
      exact Or.inl hc

/-- Any upload event produced by the binaries phase (beyond the given trace)
is either the binaries dispatch — carrying the binaries selection and an
upload configuration with the receiver's thread count — or a pom dispatch. -/
theorem uploadBinariesPhase_mem (gc : GradleCommand) (env : CondUploadEnv)
    (tr : List CondEvent) (c : UploadCall)
    (hc : CondEvent.upload c ∈ (uploadBinariesPhase gc env tr).1) :
    CondEvent.upload c ∈ tr ∨
      (env.binariesSpecFile = some c.specFiles ∧
       c.uploadConfigThreads = some gc.threads ∧
       c.buildConfiguration = gc.configuration ∧ c.serverDetails = gc.serverDetails) ∨
      (env.pomSpecFile = some c.specFiles ∧ c.uploadConfigThreads = none ∧
       c.buildConfiguration = gc.configuration ∧ c.serverDetails = gc.serverDetails) := by
  unfold uploadBinariesPhase at hc
  cases hb : env.binariesSpecFile with
  | none => rw [hb] at hc; exact Or.inl hc
  | some bin =>
    rw [hb] at hc
    by_cases h : 0 < bin.Files.length
    · simp only [if_pos h] at hc
      cases hbe : env.binariesUploadErr with
      | some e =>
        rw [hbe] at hc
        rcases List.mem_append.mp hc with hm | hm
        · exact Or.inl hm
        · have hceq : c = ⟨bin, some gc.threads, gc.configuration, gc.serverDetails⟩ := by
            have := List.mem_singleton.mp hm
            exact CondEvent.upload.inj this
          subst hceq
          exact Or.inr (Or.inl ⟨rfl, rfl, rfl, rfl⟩)
      | none =>
        rw [hbe] at hc
        rcases uploadPomPhase_mem gc env _ c hc with hm | hm
        · rcases List.mem_append.mp hm with hm' | hm'
          · exact Or.inl hm'
          · have hceq : c = ⟨bin, some gc.threads, gc.configuration, gc.serverDetails⟩ := by
              have := List.mem_singleton.mp hm'
              exact CondEvent.upload.inj this
            subst hceq
            exact Or.inr (Or.inl ⟨rfl, rfl, rfl, rfl⟩)
        · exact Or.inr (Or.inr hm)
    · simp only [if_neg h] at hc
      rcases uploadPomPhase_mem gc env _ c hc with hm | hm
      · exact Or.inl hm
      · exact Or.inr (Or.inr hm)

/-- Claim C3 (corrected): every upload dispatched by conditionalUpload
carries the receiver's build configuration and server details and is either
the binaries dispatch, whose upload configuration carries the configured
thread count, or the descriptors dispatch, which is issued without any upload
configuration — hence without the thread count. -/
theorem conditionalUpload_dispatch_threads
    (gc : GradleCommand) (env : CondUploadEnv) (c : UploadCall)
    (hc : CondEvent.upload c ∈ (conditionalUpload gc env).1) :
    ((env.binariesSpecFile = some c.specFiles ∧
      c.uploadConfigThreads = some gc.threads) ∨
     (env.pomSpecFile = some c.specFiles ∧ c.uploadConfigThreads = none)) ∧
    c.buildConfiguration = gc.configuration ∧ c.serverDetails = gc.serverDetails := by
  unfold conditionalUpload at hc
  cases hsd : env.serverDetailsErr with
  | some e => rw [hsd] at hc; simp at hc
  | none =>
    rw [hsd] at hc
    have hfin : CondEvent.upload c ∈ [CondEvent.close] ∨
        CondEvent.upload c ∈ [CondEvent.reset] ∨
        CondEvent.upload c ∈ (uploadBinariesPhase gc env [CondEvent.close]).1 ∨
        CondEvent.upload c ∈ (uploadBinariesPhase gc env [CondEvent.reset]).1 := by
      cases hds : gc.detailedSummary with
      | false =>
        rw [hds] at hc
        cases hce : env.closeErr with
        | some ce => rw [hce] at hc; simp only [Bool.not_false, if_true] at hc; exact Or.inl hc
        | none =>
          rw [hce] at hc
          cases hsc : env.scanErr with
          | some e => rw [hsc] at hc; simp only [Bool.not_false, if_true] at hc; exact Or.inl hc
          | none => rw [hsc] at hc; simp only [Bool.not_false, if_true] at hc; exact Or.inr (Or.inr (Or.inl hc))
      | true =>
        rw [hds] at hc
        cases hsc : env.scanErr with
        | some e => rw [hsc] at hc; simp only [Bool.not_true, if_false] at hc; exact Or.inr (Or.inl hc)
        | none => rw [hsc] at hc; simp only [Bool.not_true, if_false] at hc; exact Or.inr (Or.inr (Or.inr hc))
    rcases hfin with hm | hm | hm | hm
    · simp at hm
    · simp at hm
    all_goals {
      rcases uploadBinariesPhase_mem gc env _ c hm with hm' | hm' | hm'
      · simp at hm'
      · exact ⟨Or.inl ⟨hm'.1, hm'.2.1⟩, hm'.2.2⟩
      · exact ⟨Or.inr ⟨hm'.1, hm'.2.1⟩, hm'.2.2⟩
    }

theorem doubleWinChars_ne_nil {cs : List Char} (h : cs ≠ []) :
    doubleWinChars cs ≠ [] := by
  cases cs with
  | nil => exact absurd rfl h
  | cons c cs => unfold doubleWinChars; by_cases hc : c = '\\' <;> simp [hc]

theorem doubleWinPathSeparator_ne_empty {s : String} (h : s ≠ "") :
    doubleWinPathSeparator s ≠ "" := by
  intro he
  apply h
  cases s with
  | mk data =>
    unfold doubleWinPathSeparator at he
    have hdata : doubleWinChars data = [] := by
      have := congrArg String.data he
      simpa using this
    cases data with
    | nil => rfl
    | cons c cs => exact absurd hdata (doubleWinChars_ne_nil (by simp))

theorem Viper.getString_set_same (v : Viper) (k val : String) :
    (v.set k val).getString k = val := by
  simp [Viper.set, Viper.getString, Viper.lookup, List.find?]

theorem Viper.getString_set_ne (v : Viper) (k k' val : String) (h : k' ≠ k) :
    (v.set k val).getString k' = v.getString k' := by
  have hkk : (k == k') = false := by simp [Ne.symm h]
  simp [Viper.set, Viper.getString, Viper.lookup, List.find?, hkk]

/-- What `setDeployFalse` does to the three deployer keys: the deploy flag is
forced to `"false"`, and url/repo get placeholder values exactly when unset. -/
theorem setDeployFalse_getString (v : Viper) :
    (setDeployFalse v).getString (DeployerPrefix ++ DeployArtifacts) = "false" ∧
    (setDeployFalse v).getString (DeployerPrefix ++ Url) =
      (if v.getString (DeployerPrefix ++ Url) = "" then "http://empty_url"
       else v.getString (DeployerPrefix ++ Url)) ∧
    (setDeployFalse v).getString (DeployerPrefix ++ Repo) =
      (if v.getString (DeployerPrefix ++ Repo) = "" then "empty_repo"
       else v.getString (DeployerPrefix ++ Repo)) := by
  unfold setDeployFalse
  by_cases hu : v.getString (DeployerPrefix ++ Url) = "" <;>
  by_cases hr : v.getString (DeployerPrefix ++ Repo) = "" <;>
    simp +decide [Viper.getString_set_same, Viper.getString_set_ne, hu, hr]

/-- Claim C7 (corrected): when a scan is requested — the only case in which
Run passes disableDeploy = true down to the run-config builder — the
configuration handed to the executor has the deploy-artifacts flag forced to
"false" and the deployer url/repo replaced by the non-empty placeholders
exactly when they were unset (set values are left unchanged). When deployment
must be disabled only because no deployer section is configured, Run passes
disableDeploy = false and nothing is forced; see the counterexample. -/
theorem scan_run_config_disables_deploy
    (gc : GradleCommand) (v : Viper) (execErr : Option GoError)
    (hx : gc.xrayScan = true) :
    ((runGradle v gc.buildArtifactsDetailsFile gc.threads gc.xrayScan execErr).1.getString
        (DeployerPrefix ++ DeployArtifacts) = "false") ∧
    ((runGradle v gc.buildArtifactsDetailsFile gc.threads gc.xrayScan execErr).1.getString
        (DeployerPrefix ++ Url) =
      (if v.getString (DeployerPrefix ++ Url) = "" then "http://empty_url"
       else v.getString (DeployerPrefix ++ Url))) ∧
    ((runGradle v gc.buildArtifactsDetailsFile gc.threads gc.xrayScan execErr).1.getString
        (DeployerPrefix ++ Repo) =
      (if v.getString (DeployerPrefix ++ Repo) = "" then "empty_repo"
       else v.getString (DeployerPrefix ++ Repo))) := by
  by_cases ht : 0 < gc.threads <;>
    simp +decide [runGradle, createGradleRunConfig, hx, ht, setDeployFalse_getString,
      Viper.getString_set_ne]

/-- Claim C4: when a scan is requested and the raw configuration has no
deployer section, init fails with the configuration error before the build
executor runs: Run returns that error with an empty trace (no executor
invocation, no scan, no upload) and no populated result. -/
theorem run_scan_without_deployer_config_error
    (gc : GradleCommand) (env : RunEnv) (v : Viper)
    (hx : gc.xrayScan = true)
    (hr : env.initEnv.configRead = Except.ok v)
    (hd : v.isSet "deployer" = false) :
    gc.Run env = ([],
      GoOutcome.fail "Conditional upload can only be performed if deployer is set in the config",
      false) := by
  unfold GradleCommand.Run GradleCommand.init
  simp [hr, hx, hd]

/-- When the config read succeeds, the scan/deployer guard passes, and the
temp-file steps succeed, `init` returns the raw config and the receiver with
`deploymentDisabled` computed and the artifacts file recorded exactly when
`shouldCreateBuildArtifactsFile` holds. -/
theorem init_ok_characterization
    (gc : GradleCommand) (env : InitEnv) (v : Viper) (name : String)
    (hr : env.configRead = Except.ok v)
    (htf : env.tempFile = Except.ok name)
    (htc : env.tempCloseErr = none)
    (hguard : (gc.xrayScan && !(v.isSet "deployer")) = false) :
    gc.init env = Except.ok (v,
      { gc with
        deploymentDisabled := gc.xrayScan || !(v.isSet "deployer"),
        buildArtifactsDetailsFile :=
          if (gc.detailedSummary && !(gc.xrayScan || !(v.isSet "deployer"))) || gc.xrayScan
          then doubleWinPathSeparator name
          else gc.buildArtifactsDetailsFile }) := by
  unfold GradleCommand.init GradleCommand.shouldCreateBuildArtifactsFile
  simp only [hr, hguard, Bool.false_eq_true, if_false]
  cases hsc : (gc.detailedSummary && !(gc.xrayScan || !(v.isSet "deployer"))) || gc.xrayScan <;>
    simp [htf, htc, hsc]

/-- Claim C10: in a run whose init collaborators succeed, the
build-artifacts details file is recorded (non-empty) iff a detailed summary is
requested and deployment is not disabled, or a scan is requested; hence when a
detailed summary is requested with no deployer section and no scan, no file is
created, the deployable-artifacts unmarshalling never runs and the result is
never populated. -/
theorem artifacts_file_iff_summary_or_scan
    (gc : GradleCommand) (env : RunEnv) (v : Viper) (name : String)
    (hr : env.initEnv.configRead = Except.ok v)
    (htf : env.initEnv.tempFile = Except.ok name) (hn : name ≠ "")
    (htc : env.initEnv.tempCloseErr = none)
    (hfile : gc.buildArtifactsDetailsFile = "")
    (hguard : (gc.xrayScan && !(v.isSet "deployer")) = false) :
    (∃ gc', gc.init env.initEnv = Except.ok (v, gc') ∧
      (gc'.buildArtifactsDetailsFile ≠ "" ↔
        ((gc.detailedSummary = true ∧ gc.xrayScan = false ∧ v.isSet "deployer" = true) ∨
          gc.xrayScan = true))) ∧
    (gc.detailedSummary = true → gc.xrayScan = false → v.isSet "deployer" = false →
      RunEvent.unmarshal ∉ (gc.Run env).1 ∧ (gc.Run env).2.2 = false) := by
  have hinit := init_ok_characterization gc env.initEnv v name hr htf htc hguard
  have hne := doubleWinPathSeparator_ne_empty hn
  constructor
  · refine ⟨_, hinit, ?_⟩
    cases hds : gc.detailedSummary <;> cases hx : gc.xrayScan <;>
      cases his : v.isSet "deployer" <;>
      simp_all [hfile, hne]
  · intro hds hx his
    unfold GradleCommand.Run
    rw [hinit]
    simp only [hds, hx, his]
    simp [hfile, runGradle]
    cases env.execErr <;> simp

/-- Claim C1 counterexample: a present-but-empty binaries selection with a
non-empty descriptors selection still produces an upload call, refuting the
claim that an empty binaries selection yields no upload of any kind. -/
theorem conditionalUpload_empty_binaries_counterexample :
    conditionalUpload ⟨3, false, true, 0, 7, 9, false, ""⟩
        ⟨none, some ⟨[]⟩, some ⟨["pom.xml"]⟩, none, none, none, none⟩ =
      ([CondEvent.close, CondEvent.upload ⟨⟨["pom.xml"]⟩, none, 7, 9⟩],
       GoOutcome.ok) ∧
    (CondEvent.upload ⟨⟨["pom.xml"]⟩, none, 7, 9⟩ ∈
      (conditionalUpload ⟨3, false, true, 0, 7, 9, false, ""⟩
        ⟨none, some ⟨[]⟩, some ⟨["pom.xml"]⟩, none, none, none, none⟩).1) := by
  decide

/-- Claim C3 counterexample: in a run where both phases dispatch, the
descriptors dispatch carries no upload configuration (no thread count), unlike
the binaries dispatch, refuting the claim that every upload is issued with the
configured thread count. -/
theorem conditionalUpload_pom_dispatch_no_threads_counterexample :
    conditionalUpload ⟨3, false, true, 0, 7, 9, false, ""⟩
        ⟨none, some ⟨["a.jar"]⟩, some ⟨["pom.xml"]⟩, none, none, none, none⟩ =
      ([CondEvent.close,
        CondEvent.upload ⟨⟨["a.jar"]⟩, some 3, 7, 9⟩,
        CondEvent.upload ⟨⟨["pom.xml"]⟩, none, 7, 9⟩],
       GoOutcome.ok) ∧
    (none : Option Int) ≠ some 3 := by
  decide

/-- Claim C7 counterexample: with no deployer section configured and no
scan requested — a case in which the claim says deployment must be disabled —
the executor receives the configuration unchanged: the deploy-artifacts flag
is not "false" and no placeholders are filled. -/
theorem run_no_deployer_no_scan_deploy_not_forced :
    GradleCommand.Run ⟨0, false, false, 0, 7, 9, false, ""⟩
        ⟨⟨Except.ok ⟨[]⟩, Except.ok "tmp", none⟩, none, none,
         ⟨none, none, none, none, none, none, none⟩⟩ =
      ([RunEvent.execGradle ⟨[]⟩], GoOutcome.ok, false) ∧
    Viper.isSet ⟨[]⟩ "deployer" = false ∧
    Viper.getString ⟨[]⟩ (DeployerPrefix ++ DeployArtifacts) ≠ "false" := by
  decide

/-- Witness for the Claim C1 theorem at a concrete run. -/
theorem conditionalUpload_nil_binaries_no_upload_witness :
    ((⟨none, none, some ⟨["pom.xml"]⟩, none, none, none, none⟩ :
        CondUploadEnv).binariesSpecFile = none) ∧
    ((∀ c, CondEvent.upload c ∉
        (conditionalUpload ⟨3, false, true, 0, 7, 9, false, ""⟩
          ⟨none, none, some ⟨["pom.xml"]⟩, none, none, none, none⟩).1) ∧
     ((⟨none, none, some ⟨["pom.xml"]⟩, none, none, none, none⟩ :
        CondUploadEnv).serverDetailsErr = none →
      (⟨none, none, some ⟨["pom.xml"]⟩, none, none, none, none⟩ :
        CondUploadEnv).scanErr = none →
      ((⟨3, false, true, 0, 7, 9, false, ""⟩ : GradleCommand).detailedSummary = false →
        (⟨none, none, some ⟨["pom.xml"]⟩, none, none, none, none⟩ :
          CondUploadEnv).closeErr = none) →
      (conditionalUpload ⟨3, false, true, 0, 7, 9, false, ""⟩
        ⟨none, none, some ⟨["pom.xml"]⟩, none, none, none, none⟩).2 = GoOutcome.ok)) :=
  ⟨rfl, conditionalUpload_nil_binaries_no_upload _ _ rfl⟩

/-- Witness for the Claim C2 theorem at a concrete run. -/
theorem conditionalUpload_disposal_exactly_once_witness :
    ((⟨none, some ⟨["a.jar"]⟩, some ⟨["pom.xml"]⟩, none, none, none, none⟩ :
        CondUploadEnv).serverDetailsErr = none) ∧
    ((∃ us, (conditionalUpload ⟨3, false, true, 0, 7, 9, false, ""⟩
        ⟨none, some ⟨["a.jar"]⟩, some ⟨["pom.xml"]⟩, none, none, none, none⟩).1 =
        CondEvent.close :: us ∧ ∀ e ∈ us, ∃ c, e = CondEvent.upload c) ∧
     (conditionalUpload ⟨3, false, true, 0, 7, 9, false, ""⟩
        ⟨none, some ⟨["a.jar"]⟩, some ⟨["pom.xml"]⟩, none, none, none, none⟩).1.count
        CondEvent.close = 1 ∧
     (conditionalUpload ⟨3, false, true, 0, 7, 9, false, ""⟩
        ⟨none, some ⟨["a.jar"]⟩, some ⟨["pom.xml"]⟩, none, none, none, none⟩).1.count
        CondEvent.reset = 0) :=
  ⟨rfl, conditionalUpload_disposal_exactly_once _ _ rfl⟩

/-- Witness for the Claim C3 theorem at a concrete dispatch. -/
theorem conditionalUpload_dispatch_threads_witness :
    (CondEvent.upload ⟨⟨["a.jar"]⟩, some 3, 7, 9⟩ ∈
      (conditionalUpload ⟨3, false, true, 0, 7, 9, false, ""⟩
        ⟨none, some ⟨["a.jar"]⟩, some ⟨["pom.xml"]⟩, none, none, none, none⟩).1) ∧
    ((((⟨none, some ⟨["a.jar"]⟩, some ⟨["pom.xml"]⟩, none, none, none, none⟩ :
          CondUploadEnv).binariesSpecFile = some ⟨["a.jar"]⟩ ∧
       (some 3 : Option Int) = some 3) ∨
      ((⟨none, some ⟨["a.jar"]⟩, some ⟨["pom.xml"]⟩, none, none, none, none⟩ :
          CondUploadEnv).pomSpecFile = some ⟨["a.jar"]⟩ ∧
       (some 3 : Option Int) = none)) ∧
     (7 : Nat) = 7 ∧ (9 : Nat) = 9) :=
  ⟨by decide, conditionalUpload_dispatch_threads
    ⟨3, false, true, 0, 7, 9, false, ""⟩
    ⟨none, some ⟨["a.jar"]⟩, some ⟨["pom.xml"]⟩, none, none, none, none⟩
    ⟨⟨["a.jar"]⟩, some 3, 7, 9⟩ (by decide)⟩

/-- Witness for the Claim C4 theorem at a concrete run. -/
theorem run_scan_without_deployer_config_error_witness :
    ((⟨0, false, true, 0, 7, 9, false, ""⟩ : GradleCommand).xrayScan = true) ∧
    ((⟨⟨Except.ok ⟨[]⟩, Except.ok "tmp", none⟩, none, none,
        ⟨none, none, none, none, none, none, none⟩⟩ : RunEnv).initEnv.configRead =
      Except.ok ⟨[]⟩) ∧
    (Viper.isSet ⟨[]⟩ "deployer" = false) ∧
    (GradleCommand.Run ⟨0, false, true, 0, 7, 9, false, ""⟩
        ⟨⟨Except.ok ⟨[]⟩, Except.ok "tmp", none⟩, none, none,
         ⟨none, none, none, none, none, none, none⟩⟩ =
      ([], GoOutcome.fail "Conditional upload can only be performed if deployer is set in the config",
       false)) :=
  ⟨rfl, rfl, rfl,
    run_scan_without_deployer_config_error
      ⟨0, false, true, 0, 7, 9, false, ""⟩
      ⟨⟨Except.ok ⟨[]⟩, Except.ok "tmp", none⟩, none, none,
       ⟨none, none, none, none, none, none, none⟩⟩
      ⟨[]⟩ rfl rfl rfl⟩

/-- Witness for the Claim C5 theorem at a concrete run. -/
theorem conditionalUpload_binaries_failure_skips_poms_witness :
    ((⟨none, some ⟨["a.jar"]⟩, some ⟨["pom.xml"]⟩, none, none, some "boom", none⟩ :
        CondUploadEnv).serverDetailsErr = none) ∧
    ((⟨3, false, true, 0, 7, 9, false, ""⟩ : GradleCommand).detailedSummary = false →
      (⟨none, some ⟨["a.jar"]⟩, some ⟨["pom.xml"]⟩, none, none, some "boom", none⟩ :
        CondUploadEnv).closeErr = none) ∧
    ((⟨none, some ⟨["a.jar"]⟩, some ⟨["pom.xml"]⟩, none, none, some "boom", none⟩ :
        CondUploadEnv).scanErr = none) ∧
    ((⟨none, some ⟨["a.jar"]⟩, some ⟨["pom.xml"]⟩, none, none, some "boom", none⟩ :
        CondUploadEnv).binariesSpecFile = some ⟨["a.jar"]⟩) ∧
    ((⟨["a.jar"]⟩ : SpecFiles).Files ≠ []) ∧
    ((⟨none, some ⟨["a.jar"]⟩, some ⟨["pom.xml"]⟩, none, none, some "boom", none⟩ :
        CondUploadEnv).binariesUploadErr = some "boom") ∧
    (conditionalUpload ⟨3, false, true, 0, 7, 9, false, ""⟩
        ⟨none, some ⟨["a.jar"]⟩, some ⟨["pom.xml"]⟩, none, none, some "boom", none⟩ =
      ([CondEvent.close, CondEvent.upload ⟨⟨["a.jar"]⟩, some 3, 7, 9⟩],
       GoOutcome.fail "boom")) :=
  ⟨rfl, fun _ => rfl, rfl, rfl, by decide, rfl,
    conditionalUpload_binaries_failure_skips_poms
      ⟨3, false, true, 0, 7, 9, false, ""⟩
      ⟨none, some ⟨["a.jar"]⟩, some ⟨["pom.xml"]⟩, none, none, some "boom", none⟩
      ⟨["a.jar"]⟩ "boom" rfl (fun _ => rfl) rfl rfl (by decide) rfl⟩

/-- Witness for the Claim C6 theorem at a concrete run. -/
theorem conditionalUpload_binaries_before_poms_witness :
    ((⟨none, some ⟨["a.jar"]⟩, some ⟨["pom.xml"]⟩, none, none, none, none⟩ :
        CondUploadEnv).serverDetailsErr = none) ∧
    ((⟨["a.jar"]⟩ : SpecFiles).Files ≠ []) ∧
    ((⟨["pom.xml"]⟩ : SpecFiles).Files ≠ []) ∧
    (conditionalUpload ⟨3, false, true, 0, 7, 9, false, ""⟩
        ⟨none, some ⟨["a.jar"]⟩, some ⟨["pom.xml"]⟩, none, none, none, none⟩ =
      ([CondEvent.close,
        CondEvent.upload ⟨⟨["a.jar"]⟩, some 3, 7, 9⟩,
        CondEvent.upload ⟨⟨["pom.xml"]⟩, none, 7, 9⟩],
       GoOutcome.ok)) :=
  ⟨rfl, by decide, by decide,
    conditionalUpload_binaries_before_poms
      ⟨3, false, true, 0, 7, 9, false, ""⟩
      ⟨none, some ⟨["a.jar"]⟩, some ⟨["pom.xml"]⟩, none, none, none, none⟩
      ⟨["a.jar"]⟩ ⟨["pom.xml"]⟩ rfl (fun _ => rfl) rfl rfl (by decide) rfl
      (by decide) rfl rfl⟩

/-- Witness for the Claim C7 theorem at a concrete configuration. -/
theorem scan_run_config_disables_deploy_witness :
    ((⟨3, false, true, 0, 7, 9, false, ""⟩ : GradleCommand).xrayScan = true) ∧
    (((runGradle ⟨[("deployer.url", "http://real")]⟩ "" 3 true none).1.getString
        (DeployerPrefix ++ DeployArtifacts) = "false") ∧
     ((runGradle ⟨[("deployer.url", "http://real")]⟩ "" 3 true none).1.getString
        (DeployerPrefix ++ Url) = "http://real") ∧
     ((runGradle ⟨[("deployer.url", "http://real")]⟩ "" 3 true none).1.getString
        (DeployerPrefix ++ Repo) = "empty_repo")) :=
  ⟨rfl, by
    simpa using scan_run_config_disables_deploy
      ⟨3, false, true, 0, 7, 9, false, ""⟩
      ⟨[("deployer.url", "http://real")]⟩ none rfl⟩

/-- Witness for the Claim C8 theorem at a concrete run. -/
theorem conditionalUpload_nil_pom_panics_witness :
    ((⟨none, some ⟨["a.jar"]⟩, none, none, none, none, none⟩ :
        CondUploadEnv).serverDetailsErr = none) ∧
    ((⟨none, some ⟨["a.jar"]⟩, none, none, none, none, none⟩ :
        CondUploadEnv).binariesSpecFile = some ⟨["a.jar"]⟩) ∧
    ((⟨none, some ⟨["a.jar"]⟩, none, none, none, none, none⟩ :
        CondUploadEnv).pomSpecFile = none) ∧
    ((conditionalUpload ⟨3, false, true, 0, 7, 9, false, ""⟩
        ⟨none, some ⟨["a.jar"]⟩, none, none, none, none, none⟩).2 =
      GoOutcome.nilPanic) :=
  ⟨rfl, rfl, rfl,
    conditionalUpload_nil_pom_panics
      ⟨3, false, true, 0, 7, 9, false, ""⟩
      ⟨none, some ⟨["a.jar"]⟩, none, none, none, none, none⟩
      ⟨["a.jar"]⟩ rfl (fun _ => rfl) rfl rfl rfl rfl⟩

/-- Witness for the Claim C9 theorem at a concrete run. -/
theorem conditionalUpload_close_error_masks_scan_error_witness :
    ((⟨3, false, true, 0, 7, 9, false, ""⟩ : GradleCommand).detailedSummary = false) ∧
    ((⟨none, some ⟨["a.jar"]⟩, some ⟨["pom.xml"]⟩, some "scan failed", some "close failed",
        none, none⟩ : CondUploadEnv).serverDetailsErr = none) ∧
    ((⟨none, some ⟨["a.jar"]⟩, some ⟨["pom.xml"]⟩, some "scan failed", some "close failed",
        none, none⟩ : CondUploadEnv).closeErr = some "close failed") ∧
    (conditionalUpload ⟨3, false, true, 0, 7, 9, false, ""⟩
        ⟨none, some ⟨["a.jar"]⟩, some ⟨["pom.xml"]⟩, some "scan failed", some "close failed",
         none, none⟩ =
      ([CondEvent.close], GoOutcome.fail "close failed")) :=
  ⟨rfl, rfl, rfl,
    conditionalUpload_close_error_masks_scan_error
      ⟨3, false, true, 0, 7, 9, false, ""⟩
      ⟨none, some ⟨["a.jar"]⟩, some ⟨["pom.xml"]⟩, some "scan failed", some "close failed",
       none, none⟩
      "close failed" rfl rfl rfl⟩

/-- Witness for the Claim C10 theorem at a concrete run. -/
theorem artifacts_file_iff_summary_or_scan_witness :
    (("tmp" : String) ≠ "") ∧
    (((⟨⟨Except.ok ⟨[]⟩, Except.ok "tmp", none⟩, none, none,
        ⟨none, none, none, none, none, none, none⟩⟩ : RunEnv).initEnv.configRead =
       Except.ok ⟨[]⟩) ∧
     ((⟨0, true, false, 0, 7, 9, false, ""⟩ : GradleCommand).buildArtifactsDetailsFile = "") ∧
     (((⟨0, true, false, 0, 7, 9, false, ""⟩ : GradleCommand).xrayScan &&
        !(Viper.isSet ⟨[]⟩ "deployer")) = false)) ∧
    ((∃ gc', GradleCommand.init ⟨0, true, false, 0, 7, 9, false, ""⟩
        ⟨Except.ok ⟨[]⟩, Except.ok "tmp", none⟩ = Except.ok (⟨[]⟩, gc') ∧
        (gc'.buildArtifactsDetailsFile ≠ "" ↔
          (((⟨0, true, false, 0, 7, 9, false, ""⟩ : GradleCommand).detailedSummary = true ∧
            (⟨0, true, false, 0, 7, 9, false, ""⟩ : GradleCommand).xrayScan = false ∧
            Viper.isSet ⟨[]⟩ "deployer" = true) ∨
           (⟨0, true, false, 0, 7, 9, false, ""⟩ : GradleCommand).xrayScan = true))) ∧
     ((⟨0, true, false, 0, 7, 9, false, ""⟩ : GradleCommand).detailedSummary = true →
      (⟨0, true, false, 0, 7, 9, false, ""⟩ : GradleCommand).xrayScan = false →
      Viper.isSet ⟨[]⟩ "deployer" = false →
      RunEvent.unmarshal ∉
        (GradleCommand.Run ⟨0, true, false, 0, 7, 9, false, ""⟩
          ⟨⟨Except.ok ⟨[]⟩, Except.ok "tmp", none⟩, none, none,
           ⟨none, none, none, none, none, none, none⟩⟩).1 ∧
      (GradleCommand.Run ⟨0, true, false, 0, 7, 9, false, ""⟩
          ⟨⟨Except.ok ⟨[]⟩, Except.ok "tmp", none⟩, none, none,
           ⟨none, none, none, none, none, none, none⟩⟩).2.2 = false)) :=
  ⟨by decide, ⟨rfl, rfl, by decide⟩,
    artifacts_file_iff_summary_or_scan
      ⟨0, true, false, 0, 7, 9, false, ""⟩
      ⟨⟨Except.ok ⟨[]⟩, Except.ok "tmp", none⟩, none, none,
       ⟨none, none, none, none, none, none, none⟩⟩
      ⟨[]⟩ "tmp" rfl rfl (by decide) rfl rfl (by decide)⟩
